import Mathlib

/-!
Shallow embedding of `LCDMenu.h` (a serial-LCD menu system): the
parameter classes `LCDMenuParameter` and `LCDMenuButton`, the container
`LCDMenuSection`, and the controller `LCDMenu`, together with theorems
about navigation bounds, dirty-flag tracking, callback firing, state
wraparound and sleep timing.

C++ `float` fields are modelled as `ℚ`, `int` fields as `ℤ`, and the
`millis()` clock as a `ℕ` millisecond count passed explicitly to every
operation that reads it.  Operations that issue serial commands return
the list of commands they emitted alongside the updated state.
-/

set_option autoImplicit false

/-- Change-notification payload built inside `setValue` (see `Event.h`
usage at `LCDMenu.h` lines 79-84 and 134-138).  The C++ struct also
carries a back-pointer `object` to the parameter itself; pointer identity
plays no role in any property here and is omitted. -/
structure Event where
  source : ℤ
  time : ℕ
  value : ℚ
  deriving DecidableEq

/-- The numeric (base-class) menu parameter, `LCDMenu.h` lines 27-101.
The function-pointer callback is modelled by whether one is registered;
its invocations are returned as a list of fired events. -/
structure LCDMenuParameter where
  name : String
  id : ℤ
  value : ℚ
  inc : ℚ
  display_float : Bool
  has_callback : Bool
  deriving DecidableEq

/-- `LCDMenuParameter::getValue` (lines 55-58). -/
def LCDMenuParameter.getValue (p : LCDMenuParameter) : ℚ := p.value

/-- `LCDMenuParameter::getName` (lines 69-72). -/
def LCDMenuParameter.getName (p : LCDMenuParameter) : String := p.name

/-- `LCDMenuParameter::setValue` (lines 74-88): when the value changes,
store it and, if a callback is registered, fire exactly one event carrying
the id tag, the current time and the new value; an unchanged value does
nothing. -/
def LCDMenuParameter.setValue (now : ℕ) (p : LCDMenuParameter) (new_value : ℚ) :
    LCDMenuParameter × List Event :=
  if p.value ≠ new_value then
    ({ p with value := new_value },
     if p.has_callback then [{ source := p.id, time := now, value := new_value }] else [])
  else (p, [])

/-- `LCDMenuParameter::incValue` (lines 90-93). -/
def LCDMenuParameter.incValue (now : ℕ) (p : LCDMenuParameter) (steps : ℚ) :
    LCDMenuParameter × List Event :=
  p.setValue now (p.value + p.inc * steps)

/-- The enumerated (cyclic multi-state) parameter `LCDMenuButton`,
lines 103-152.  `state_values` is the array of display strings. -/
structure LCDMenuButton where
  name : String
  id : ℤ
  num_states : ℤ
  state : ℤ
  state_values : List String
  has_callback : Bool
  deriving DecidableEq

/-- `LCDMenuButton::validState` (lines 125-127). -/
def LCDMenuButton.validState (b : LCDMenuButton) (state : ℤ) : Bool :=
  if 0 ≤ state ∧ state < b.num_states then true else false

/-- `LCDMenuButton::setValue` (lines 129-142): store the new state only
when it differs from the current one and is valid, firing at most one
event whose value is the newly stored state; otherwise, if the current
state is itself invalid, self-heal to state 0 without firing. -/
def LCDMenuButton.setValue (now : ℕ) (b : LCDMenuButton) (new_value : ℤ) :
    LCDMenuButton × List Event :=
  if b.state ≠ new_value ∧ b.validState new_value then
    ({ b with state := new_value },
     if b.has_callback then [{ source := b.id, time := now, value := (new_value : ℚ) }] else [])
  else if ¬ b.validState b.state then ({ b with state := 0 }, [])
  else (b, [])

/-- `LCDMenuButton::incValue` (lines 144-149).  The C++ function recurses
on itself when `state + steps` overshoots past the last state; the
recursion is modelled with explicit fuel, `none` meaning the fuel ran out
before the recursion terminated. -/
def LCDMenuButton.incValueF (fuel : ℕ) (now : ℕ) (b : LCDMenuButton) (steps : ℤ) :
    Option (LCDMenuButton × List Event) :=
  match fuel with
  | 0 => none
  | fuel + 1 =>
    if b.num_states ≤ b.state + steps then b.incValueF fuel now (b.state + steps - b.num_states)
    else if b.state + steps < 0 then some (b.setValue now (b.num_states - 1 - (b.state + steps)))
    else some (b.setValue now (b.state + steps))

/-- `LCDMenuSection` (lines 162-193): a fixed-capacity (8) array of
pointers to parameters plus a cursor.  The `_num_params` counter always
equals the number of stored parameters (both start at 0 and are changed
only together inside `addParameter`), so the filled prefix of the array
is modelled as a list and the counter as its length. -/
structure LCDMenuSection (α : Type) where
  params : List α
  index : ℤ
  deriving DecidableEq

/-- `LCDMenuSection::getCurrentParameter` (lines 176-182): the stored
parameter at the cursor when it is in bounds, and otherwise a freshly
default-constructed `LCDMenuParameter`.  The default constructor has an
empty body, so the placeholder's fields hold whatever the uninitialized
memory held; the argument `dflt` is the placeholder under one arbitrary
resolution of those indeterminate contents. -/
def LCDMenuSection.getCurrentParameter {α : Type} (dflt : α) (s : LCDMenuSection α) : α :=
  if 0 ≤ s.index ∧ s.index < (s.params.length : ℤ) then
    s.params.getD s.index.toNat dflt
  else dflt

/-- `LCDMenuSection::addParameter` (lines 184-189): append while fewer
than 8 parameters are stored, otherwise do nothing. -/
def LCDMenuSection.addParameter {α : Type} (new_param : α) (s : LCDMenuSection α) :
    LCDMenuSection α :=
  if (s.params.length : ℤ) < 8 then { s with params := s.params ++ [new_param] } else s

/-- `LCDMenuSection::nextItem` (line 191). -/
def LCDMenuSection.nextItem {α : Type} (s : LCDMenuSection α) : LCDMenuSection α :=
  if s.index < (s.params.length : ℤ) - 1 then { s with index := s.index + 1 }
  else { s with index := 0 }

/-- `LCDMenuSection::prevItem` (line 192). -/
def LCDMenuSection.prevItem {α : Type} (s : LCDMenuSection α) : LCDMenuSection α :=
  if 0 < s.index then { s with index := s.index - 1 }
  else { s with index := (s.params.length : ℤ) - 1 }

/-- A navigation call on a section. -/
inductive NavOp where
  | next
  | prev
  deriving DecidableEq

/-- Apply a sequence of `nextItem`/`prevItem` calls, oldest first. -/
def LCDMenuSection.applyNavs {α : Type} (ops : List NavOp) (s : LCDMenuSection α) :
    LCDMenuSection α :=
  ops.foldl (fun t op => match op with | NavOp.next => t.nextItem | NavOp.prev => t.prevItem) s

/-- A parameter stored in a section through a base-class pointer: its
dynamic type is either plain `LCDMenuParameter` or `LCDMenuButton`. -/
inductive MenuParam where
  | base (p : LCDMenuParameter)
  | button (b : LCDMenuButton)
  deriving DecidableEq

/-- Virtual `isFloatValue` (lines 100 and 151): true for the numeric base
class, false for buttons. -/
def MenuParam.isFloatValue : MenuParam → Bool
  | MenuParam.base _ => true
  | MenuParam.button _ => false

/-- `getName` is not virtual and both variants share the field (lines
69-72). -/
def MenuParam.getName : MenuParam → String
  | MenuParam.base p => p.name
  | MenuParam.button b => b.name

/-- `getValue` is not virtual and reads the inherited float field (lines
55-58).  `printMenu` calls it only when `isFloatValue()` is true, never on
a button, whose inherited float field is uninitialized; 0 stands in for
that never-observed junk. -/
def MenuParam.getValue : MenuParam → ℚ
  | MenuParam.base p => p.value
  | MenuParam.button _ => 0

/-- Virtual `getDisplayValue` (lines 60-67 and 120-123): the button
variant indexes its state string array (an out-of-range state would be
undefined behaviour in C++, never reached from a valid state); the base
variant formats the float value as text. -/
def MenuParam.getDisplayValue : MenuParam → String
  | MenuParam.base p => toString p.value
  | MenuParam.button b =>
    match b.state_values.get? b.state.toNat with
    | some v => v
    | none => ""

/-- One serial command or write issued to the display: the model-specific
helpers of lines 316-372, abstracted to the command each one issues. -/
inductive DisplayCmd where
  | clearLCD
  | selectLineOne
  | selectLineTwo
  | printText (s : String)
  | printNum (q : ℚ)
  | backlightOn
  | backlightOff
  | screenSize (n : ℤ)
  deriving DecidableEq

/-- True for the commands that write row content (text or a number)
rather than position the cursor, clear the screen or control power. -/
def DisplayCmd.isWrite : DisplayCmd → Bool
  | DisplayCmd.printText _ => true
  | DisplayCmd.printNum _ => true
  | _ => false

/-- `LCDMenu` (lines 203-373).  `dirt0`/`dirt1` are the two slots of the
`_dirt` array; the private `_index` field is never read or written by any
member and is omitted.  `_sleep_timeout` and `_last_activity_time` are
millisecond counts. -/
structure LCDMenu where
  dirty : Bool
  dirt0 : Bool
  dirt1 : Bool
  is_asleep : Bool
  sleep_timeout : ℕ
  last_activity_time : ℕ
  root : Option (LCDMenuSection MenuParam)
  cur_section : Option (LCDMenuSection MenuParam)
  deriving DecidableEq

/-- `LCDMenu::stayAwake` (lines 296-303): relight the backlight when
asleep and record the current time as the last activity. -/
def LCDMenu.stayAwake (now : ℕ) (m : LCDMenu) : LCDMenu × List DisplayCmd :=
  if m.is_asleep then
    ({ m with is_asleep := false, last_activity_time := now }, [DisplayCmd.backlightOn])
  else ({ m with last_activity_time := now }, [])

/-- `LCDMenu::setDirty` (lines 283-292): store the redraw flag, then mark
the row flags — `row <= 0` marks both slots, otherwise the single slot
`_dirt[row <= 2 ? row-1 : 1]` is written (so row 1 and row 2 hit slots 0
and 1, and anything above 2 is clamped to slot 1) — and finally call
`stayAwake`. -/
def LCDMenu.setDirty (is_dirty : Bool) (row : ℤ) (now : ℕ) (m : LCDMenu) :
    LCDMenu × List DisplayCmd :=
  let m1 :=
    if row ≤ 0 then { m with dirty := is_dirty, dirt0 := is_dirty, dirt1 := is_dirty }
    else if row ≤ 2 then
      if row = 1 then { m with dirty := is_dirty, dirt0 := is_dirty }
      else { m with dirty := is_dirty, dirt1 := is_dirty }
    else { m with dirty := is_dirty, dirt1 := is_dirty }
  m1.stayAwake now

/-- `LCDMenu::sleep` (lines 305-309): turn the backlight off and set the
asleep flag. -/
def LCDMenu.sleep (m : LCDMenu) : LCDMenu × List DisplayCmd :=
  ({ m with is_asleep := true }, [DisplayCmd.backlightOff])

/-- The fresh uninitialized placeholder used where the menu would reach a
default-constructed parameter; no property proved here depends on its
contents. -/
def uninitPlaceholder : LCDMenuParameter :=
  { name := "", id := 0, value := 0, inc := 0, display_float := false, has_callback := false }

/-- `_cur_section->getCurrentParameter()` as called at line 234.  Calling
it with no section set dereferences a null pointer in C++ (undefined
behaviour); the placeholder stands in for that case, which no claim
exercises. -/
def LCDMenu.currentParam (m : LCDMenu) : MenuParam :=
  match m.cur_section with
  | some s => s.getCurrentParameter (MenuParam.base uninitPlaceholder)
  | none => MenuParam.base uninitPlaceholder

/-- `LCDMenu::printMenu` (lines 228-251): when marked dirty, clear the
flag, issue a full clear when both rows are dirty, then rewrite each dirty
row (row one: the parameter name; row two: the raw value for numeric
parameters, the display string otherwise), clearing its flag — a flag
that was already false stays false, so both end false; when clean, go to
sleep once more than `_sleep_timeout` ms have passed since the last
activity (`millis()` subtraction on unsigned counts, `now` is never below
the recorded activity time in a real run). -/
def LCDMenu.printMenu (now : ℕ) (m : LCDMenu) : LCDMenu × List DisplayCmd :=
  if m.dirty then
    let cur_param := m.currentParam
    let clearCmds := if m.dirt0 ∧ m.dirt1 then [DisplayCmd.clearLCD] else []
    let row0Cmds :=
      if m.dirt0 then [DisplayCmd.selectLineOne, DisplayCmd.printText cur_param.getName]
      else []
    let row1Cmds :=
      if m.dirt1 then
        [DisplayCmd.selectLineTwo,
         if cur_param.isFloatValue then DisplayCmd.printNum cur_param.getValue
         else DisplayCmd.printText cur_param.getDisplayValue]
      else []
    ({ m with dirty := false,
              dirt0 := if m.dirt0 then false else m.dirt0,
              dirt1 := if m.dirt1 then false else m.dirt1 },
     clearCmds ++ row0Cmds ++ row1Cmds)
  else if m.sleep_timeout < now - m.last_activity_time then
    m.sleep
  else (m, [])

/-- `LCDMenu::nextItem` (lines 253-257).  With a null `_cur_section` the
C++ call would dereference a null pointer; the model leaves the absent
section absent. -/
def LCDMenu.nextItem (now : ℕ) (m : LCDMenu) : LCDMenu × List DisplayCmd :=
  LCDMenu.setDirty true 0 now { m with cur_section := m.cur_section.map LCDMenuSection.nextItem }

/-- `LCDMenu::prevItem` (lines 259-263). -/
def LCDMenu.prevItem (now : ℕ) (m : LCDMenu) : LCDMenu × List DisplayCmd :=
  LCDMenu.setDirty true 0 now { m with cur_section := m.cur_section.map LCDMenuSection.prevItem }

/-- The effect of `getCurrentParameter()->incValue(inc)` on a stored
parameter.  `incValue` and `setValue` are not virtual, so the base-class
float versions (lines 74-93) run for both variants: the numeric variant
gets `value + inc * steps`; on a button the call writes only the
inherited float fields, which are uninitialized and never read by any
other member, so the button's modelled fields are unchanged.  Fired
events go to the host application, not to the display-command trace. -/
def MenuParam.baseIncValue (now : ℕ) (steps : ℚ) : MenuParam → MenuParam
  | MenuParam.base p => MenuParam.base (p.incValue now steps).1
  | MenuParam.button b => MenuParam.button b

/-- `_cur_section->getCurrentParameter()->incValue(inc)`: with the cursor
in bounds the stored parameter is mutated through the returned pointer;
otherwise the mutation hits the fresh placeholder and is lost. -/
def LCDMenuSection.incCurrent (now : ℕ) (steps : ℚ) (s : LCDMenuSection MenuParam) :
    LCDMenuSection MenuParam :=
  if 0 ≤ s.index ∧ s.index < (s.params.length : ℤ) then
    let updated :=
      MenuParam.baseIncValue now steps
        (s.params.getD s.index.toNat (MenuParam.base uninitPlaceholder))
    { s with params := s.params.set s.index.toNat updated }
  else s

/-- `LCDMenu::incCurrentParam` (lines 265-269). -/
def LCDMenu.incCurrentParam (inc : ℚ) (now : ℕ) (m : LCDMenu) : LCDMenu × List DisplayCmd :=
  LCDMenu.setDirty true 2 now
    { m with cur_section := m.cur_section.map (LCDMenuSection.incCurrent now inc) }

/-- `LCDMenu::addSection` (lines 271-279): replace the active section,
record it as root when none was set yet, and mark the whole display
dirty.  The unused `parent` argument is dropped. -/
def LCDMenu.addSection (sec : LCDMenuSection MenuParam) (now : ℕ) (m : LCDMenu) :
    LCDMenu × List DisplayCmd :=
  LCDMenu.setDirty true 0 now
    { m with cur_section := some sec,
             root := if m.root.isNone then some sec else m.root }

/-- The `LCDMenu` constructor (lines 215-226): null section pointers,
awake, 30000 ms timeout; it clears the display, lights the backlight,
sets the screen size and marks everything dirty.  The dirty flags and the
activity timestamp are uninitialized until `setDirty` and `stayAwake`
overwrite them; `j0 j1 j2 jt` are arbitrary resolutions of that junk. -/
def LCDMenu.construct (t0 : ℕ) (j0 j1 j2 : Bool) (jt : ℕ) : LCDMenu × List DisplayCmd :=
  let m0 : LCDMenu :=
    { dirty := j0, dirt0 := j1, dirt1 := j2, is_asleep := false,
      sleep_timeout := 30 * 1000, last_activity_time := jt,
      root := none, cur_section := none }
  let r := LCDMenu.setDirty true 0 t0 m0
  (r.1, [DisplayCmd.clearLCD, DisplayCmd.backlightOn, DisplayCmd.screenSize 5] ++ r.2)

/-- One call to a public `LCDMenu` operation, tagged with the `millis()`
value at which it happens. -/
inductive MenuOp where
  | setDirtyOp (is_dirty : Bool) (row : ℤ) (now : ℕ)
  | printMenuOp (now : ℕ)
  | nextItemOp (now : ℕ)
  | prevItemOp (now : ℕ)
  | incCurrentParamOp (inc : ℚ) (now : ℕ)
  | addSectionOp (sec : LCDMenuSection MenuParam) (now : ℕ)

/-- State reached after one public operation; the emitted display
commands are dropped. -/
def LCDMenu.applyOp (op : MenuOp) (m : LCDMenu) : LCDMenu :=
  match op with
  | MenuOp.setDirtyOp d row now => (LCDMenu.setDirty d row now m).1
  | MenuOp.printMenuOp now => (m.printMenu now).1
  | MenuOp.nextItemOp now => (m.nextItem now).1
  | MenuOp.prevItemOp now => (m.prevItem now).1
  | MenuOp.incCurrentParamOp inc now => (m.incCurrentParam inc now).1
  | MenuOp.addSectionOp sec now => (m.addSection sec now).1

/-- Apply a sequence of public operations, oldest first. -/
def LCDMenu.applyOps (ops : List MenuOp) (m : LCDMenu) : LCDMenu :=
  match ops with
  | [] => m
  | op :: rest => LCDMenu.applyOps rest (LCDMenu.applyOp op m)

/-- A four-state button with current state 0, used for the concrete
wraparound computations of the spec. -/
def fourStateButton : LCDMenuButton :=
  { name := "btn", id := 1, num_states := 4, state := 0,
    state_values := ["a", "b", "c", "d"], has_callback := false }

/-- A numeric parameter with a registered callback, for concrete
witnesses. -/
def sampleParam : LCDMenuParameter :=
  { name := "freq", id := 2, value := 3, inc := 1, display_float := true, has_callback := true }

/-- One admissible resolution of the uninitialized fields of a
default-constructed `LCDMenuParameter`: the empty constructor body
initializes nothing, so any field contents may be observed. -/
def junkPlaceholder : LCDMenuParameter :=
  { name := "junk", id := 0, value := 1, inc := 0, display_float := false, has_callback := false }

/-- A three-parameter section with the cursor at 0, for concrete
navigation witnesses. -/
def sampleSection : LCDMenuSection ℕ :=
  { params := [10, 20, 30], index := 0 }

/-- A controller state with every flag clear, for concrete dirty-flag and
sleep witnesses. -/
def cleanMenu : LCDMenu :=
  { dirty := false, dirt0 := false, dirt1 := false, is_asleep := false,
    sleep_timeout := 30000, last_activity_time := 0, root := none, cur_section := none }

/-- A one-parameter section of `MenuParam`s for the render witnesses. -/
def demoSection : LCDMenuSection MenuParam :=
  { params := [MenuParam.base sampleParam], index := 0 }

/-- A fully dirty controller observing `demoSection`, as left by
`setDirty(true)`. -/
def demoMenu : LCDMenu :=
  { dirty := true, dirt0 := true, dirt1 := true, is_asleep := false,
    sleep_timeout := 30000, last_activity_time := 0,
    root := some demoSection, cur_section := some demoSection }



/-- C1, counterexample: on a button with `state_count = 4` and current
state 0, `incValue(-1)` does not yield state 3: the wrap-down branch
passes `4 - 1 - (0 + (-1)) = 4` to `setValue`, an invalid state which
`setValue` ignores, so the state stays 0. -/
theorem C1_counterexample :
    (LCDMenuButton.incValueF 6 0 fourStateButton (-1)).map (fun r => r.1.state) = some 0 ∧
    (LCDMenuButton.incValueF 6 0 fourStateButton (-1)).map (fun r => r.1.state) ≠ some 3 := by
  decide

/-- C1 (amended): on a button with `state_count = 4` and current state 0,
`incValue(-1)` leaves the state at 0 — the wrap-down formula
`state_count - 1 - (state + steps)` produces the invalid state 4, which
`setValue` ignores — while `incValue(5)` wraps up by repeated subtraction
of `state_count` and yields state 1. -/
theorem C1_incValue_wrap :
    (LCDMenuButton.incValueF 6 0 fourStateButton (-1)).map (fun r => r.1.state) = some 0 ∧
    (LCDMenuButton.incValueF 6 0 fourStateButton 5).map (fun r => r.1.state) = some 1 := by
  decide

/-- C2: for a numeric parameter with a registered callback, `setValue`
with the current value fires no event and leaves the parameter unchanged,
while `setValue` with any different value fires exactly one event whose
value field is the argument. -/
theorem C2_setValue_callback (p : LCDMenuParameter) (v : ℚ) (now : ℕ)
    (hcb : p.has_callback = true) :
    (v = p.value → p.setValue now v = (p, [])) ∧
    (v ≠ p.value → (p.setValue now v).2 = [{ source := p.id, time := now, value := v }]) := by
  constructor
  · intro hv
    simp [LCDMenuParameter.setValue, hv]
  · intro hv
    simp [LCDMenuParameter.setValue, Ne.symm hv, hcb]

theorem C2_setValue_callback_witness :
    ((4 : ℚ) = sampleParam.value → sampleParam.setValue 7 4 = (sampleParam, [])) ∧
    ((4 : ℚ) ≠ sampleParam.value →
      (sampleParam.setValue 7 4).2 = [{ source := sampleParam.id, time := 7, value := 4 }]) :=
  C2_setValue_callback sampleParam 4 7 rfl

/-- Fuel bound for the recursion in `incValueF`: from a valid state, any
fuel exceeding `steps.toNat` is enough for the recursion to finish. -/
theorem LCDMenuButton.incValueF_isSome (n : ℕ) :
    ∀ (steps : ℤ) (now : ℕ) (b : LCDMenuButton), 0 ≤ b.state → b.state < b.num_states →
      steps.toNat < n → (b.incValueF n now steps).isSome = true := by
  induction n with
  | zero => intro steps now b _ _ h; omega
  | succ n ih =>
    intro steps now b h1 h2 hf
    rw [LCDMenuButton.incValueF]
    by_cases hc : b.num_states ≤ b.state + steps
    · rw [if_pos hc]
      exact ih (b.state + steps - b.num_states) now b h1 h2 (by omega)
    · rw [if_neg hc]
      by_cases hn : b.state + steps < 0
      · rw [if_pos hn]; rfl
      · rw [if_neg hn]; rfl

/-- C8: for a button whose current state lies in `[0, state_count)`, the
recursion inside `incValue` terminates for every integer `steps`: fuel
`steps.toNat + 1` already suffices to reach a result. -/
theorem C8_incValue_terminates (b : LCDMenuButton) (steps : ℤ) (now : ℕ)
    (h1 : 0 ≤ b.state) (h2 : b.state < b.num_states) :
    (b.incValueF (steps.toNat + 1) now steps).isSome = true :=
  LCDMenuButton.incValueF_isSome (steps.toNat + 1) steps now b h1 h2 (by omega)

theorem C8_incValue_terminates_witness :
    (fourStateButton.incValueF ((10 : ℤ).toNat + 1) 0 10).isSome = true :=
  C8_incValue_terminates fourStateButton 10 0 (by decide) (by decide)

/-- One `nextItem` step keeps the cursor in range and the parameter list
unchanged. -/
theorem LCDMenuSection.nextItem_inv {α : Type} (s : LCDMenuSection α)
    (h1 : 0 ≤ s.index) (h2 : s.index < (s.params.length : ℤ)) :
    s.nextItem.params = s.params ∧ 0 ≤ s.nextItem.index ∧
      s.nextItem.index < (s.params.length : ℤ) := by
  unfold LCDMenuSection.nextItem
  split <;> refine ⟨rfl, ?_, ?_⟩ <;> simp <;> omega

/-- One `prevItem` step keeps the cursor in range and the parameter list
unchanged. -/
theorem LCDMenuSection.prevItem_inv {α : Type} (s : LCDMenuSection α)
    (h1 : 0 ≤ s.index) (h2 : s.index < (s.params.length : ℤ)) :
    s.prevItem.params = s.params ∧ 0 ≤ s.prevItem.index ∧
      s.prevItem.index < (s.params.length : ℤ) := by
  unfold LCDMenuSection.prevItem
  split <;> refine ⟨rfl, ?_, ?_⟩ <;> simp <;> omega

/-- Any sequence of navigation calls keeps the cursor in range and the
parameter list unchanged. -/
theorem LCDMenuSection.applyNavs_inv {α : Type} (ops : List NavOp) (s : LCDMenuSection α)
    (h1 : 0 ≤ s.index) (h2 : s.index < (s.params.length : ℤ)) :
    (s.applyNavs ops).params = s.params ∧ 0 ≤ (s.applyNavs ops).index ∧
      (s.applyNavs ops).index < (s.params.length : ℤ) := by
  induction ops generalizing s with
  | nil => exact ⟨rfl, h1, h2⟩
  | cons op ops ih =>
    cases op with
    | next =>
      obtain ⟨hp, ha, hb⟩ := LCDMenuSection.nextItem_inv s h1 h2
      obtain ⟨hp2, ha2, hb2⟩ := ih s.nextItem ha (by rw [hp]; exact hb)
      refine ⟨by simpa [LCDMenuSection.applyNavs, hp] using hp2, ?_, ?_⟩
      · simpa [LCDMenuSection.applyNavs] using ha2
      · have := hb2
        rw [hp] at this
        simpa [LCDMenuSection.applyNavs] using this
    | prev =>
      obtain ⟨hp, ha, hb⟩ := LCDMenuSection.prevItem_inv s h1 h2
      obtain ⟨hp2, ha2, hb2⟩ := ih s.prevItem ha (by rw [hp]; exact hb)
      refine ⟨by simpa [LCDMenuSection.applyNavs, hp] using hp2, ?_, ?_⟩
      · simpa [LCDMenuSection.applyNavs] using ha2
      · have := hb2
        rw [hp] at this
        simpa [LCDMenuSection.applyNavs] using this

/-- C3: with a nonempty parameter list and the cursor in range, every
sequence of `nextItem`/`prevItem` calls keeps the cursor inside
`[0, count)`; moreover `nextItem` from `count - 1` wraps to 0 and
`prevItem` from 0 wraps to `count - 1`. -/
theorem C3_cursor_bounds {α : Type} (s : LCDMenuSection α) (ops : List NavOp)
    (h0 : 0 < s.params.length) (h1 : 0 ≤ s.index) (h2 : s.index < (s.params.length : ℤ)) :
    (0 ≤ (s.applyNavs ops).index ∧
      (s.applyNavs ops).index < ((s.applyNavs ops).params.length : ℤ)) ∧
    (s.index = (s.params.length : ℤ) - 1 → s.nextItem.index = 0) ∧
    (s.index = 0 → s.prevItem.index = (s.params.length : ℤ) - 1) := by
  obtain ⟨hp, ha, hb⟩ := LCDMenuSection.applyNavs_inv ops s h1 h2
  refine ⟨⟨ha, by rw [hp]; exact hb⟩, ?_, ?_⟩
  · intro hend
    unfold LCDMenuSection.nextItem
    rw [if_neg (by omega)]
  · intro hzero
    unfold LCDMenuSection.prevItem
    rw [if_neg (by omega)]

theorem C3_cursor_bounds_witness :
    (0 ≤ (sampleSection.applyNavs [NavOp.prev, NavOp.next]).index ∧
      (sampleSection.applyNavs [NavOp.prev, NavOp.next]).index <
        (((sampleSection.applyNavs [NavOp.prev, NavOp.next]).params.length : ℕ) : ℤ)) ∧
    (sampleSection.index = ((sampleSection.params.length : ℕ) : ℤ) - 1 →
      sampleSection.nextItem.index = 0) ∧
    (sampleSection.index = 0 →
      sampleSection.prevItem.index = ((sampleSection.params.length : ℕ) : ℤ) - 1) :=
  C3_cursor_bounds sampleSection [NavOp.prev, NavOp.next] (by decide) (by decide) (by decide)

/-- C9 (amended): querying an empty section returns exactly the freshly
default-constructed placeholder — never a stored parameter, never a null
pointer or failure — whatever indeterminate contents `dflt` that
placeholder's uninitialized fields hold. -/
theorem C9_empty_section_placeholder {α : Type} (dflt : α) (s : LCDMenuSection α)
    (h : s.params = []) : s.getCurrentParameter dflt = dflt := by
  unfold LCDMenuSection.getCurrentParameter
  rw [h]
  split
  · simp [List.getD]
  · rfl

theorem C9_empty_section_placeholder_witness :
    LCDMenuSection.getCurrentParameter 7 { params := ([] : List ℕ), index := 0 } = 7 :=
  C9_empty_section_placeholder 7 { params := ([] : List ℕ), index := 0 } rfl

/-- C9, counterexample: the placeholder returned for an empty section is
default-constructed with an empty constructor body, so its name and value
are NOT guaranteed to be empty and zero: under the admissible memory
resolution `junkPlaceholder` the returned parameter has value 1 and a
nonempty name. -/
theorem C9_counterexample :
    (LCDMenuSection.getCurrentParameter junkPlaceholder
        { params := ([] : List LCDMenuParameter), index := 0 }).value ≠ 0 ∧
    (LCDMenuSection.getCurrentParameter junkPlaceholder
        { params := ([] : List LCDMenuParameter), index := 0 }).name ≠ "" := by
  constructor
  · decide
  · decide

/-- C10: adding to a section that already holds 8 parameters leaves the
section — count, stored parameters and cursor — completely unchanged. -/
theorem C10_addParameter_full {α : Type} (s : LCDMenuSection α) (p : α)
    (h : s.params.length = 8) : s.addParameter p = s := by
  unfold LCDMenuSection.addParameter
  rw [if_neg (by omega)]

theorem C10_addParameter_full_witness :
    LCDMenuSection.addParameter 9 { params := [0, 1, 2, 3, 4, 5, 6, 7], index := 0 } =
      ({ params := [0, 1, 2, 3, 4, 5, 6, 7], index := 0 } : LCDMenuSection ℕ) :=
  C10_addParameter_full { params := [0, 1, 2, 3, 4, 5, 6, 7], index := 0 } 9 rfl

/-- `stayAwake` leaves the redraw flag alone. -/
@[simp] theorem LCDMenu.stayAwake_dirty (t : ℕ) (m : LCDMenu) :
    (m.stayAwake t).1.dirty = m.dirty := by
  unfold LCDMenu.stayAwake; split <;> rfl

/-- `stayAwake` leaves row 1's flag alone. -/
@[simp] theorem LCDMenu.stayAwake_dirt0 (t : ℕ) (m : LCDMenu) :
    (m.stayAwake t).1.dirt0 = m.dirt0 := by
  unfold LCDMenu.stayAwake; split <;> rfl

/-- `stayAwake` leaves row 2's flag alone. -/
@[simp] theorem LCDMenu.stayAwake_dirt1 (t : ℕ) (m : LCDMenu) :
    (m.stayAwake t).1.dirt1 = m.dirt1 := by
  unfold LCDMenu.stayAwake; split <;> rfl

/-- After `stayAwake` the controller is awake. -/
@[simp] theorem LCDMenu.stayAwake_is_asleep (t : ℕ) (m : LCDMenu) :
    (m.stayAwake t).1.is_asleep = false := by
  unfold LCDMenu.stayAwake; split <;> simp_all

/-- `stayAwake` leaves the timeout alone. -/
@[simp] theorem LCDMenu.stayAwake_sleep_timeout (t : ℕ) (m : LCDMenu) :
    (m.stayAwake t).1.sleep_timeout = m.sleep_timeout := by
  unfold LCDMenu.stayAwake; split <;> rfl

/-- `stayAwake` stamps the activity time with the current time. -/
@[simp] theorem LCDMenu.stayAwake_last_activity (t : ℕ) (m : LCDMenu) :
    (m.stayAwake t).1.last_activity_time = t := by
  unfold LCDMenu.stayAwake; split <;> rfl

/-- `stayAwake` leaves the active section alone. -/
@[simp] theorem LCDMenu.stayAwake_cur_section (t : ℕ) (m : LCDMenu) :
    (m.stayAwake t).1.cur_section = m.cur_section := by
  unfold LCDMenu.stayAwake; split <;> rfl

/-- `stayAwake` leaves the root section alone. -/
@[simp] theorem LCDMenu.stayAwake_root (t : ℕ) (m : LCDMenu) :
    (m.stayAwake t).1.root = m.root := by
  unfold LCDMenu.stayAwake; split <;> rfl

/-- Field-level description of `setDirty`: which flags each `row`
argument touches, and the `stayAwake` effects of every call. -/
theorem LCDMenu.setDirty_fields (is_dirty : Bool) (row : ℤ) (now : ℕ) (m : LCDMenu) :
    (LCDMenu.setDirty is_dirty row now m).1.dirty = is_dirty ∧
    (row ≤ 0 → (LCDMenu.setDirty is_dirty row now m).1.dirt0 = is_dirty ∧
      (LCDMenu.setDirty is_dirty row now m).1.dirt1 = is_dirty) ∧
    (row = 1 → (LCDMenu.setDirty is_dirty row now m).1.dirt0 = is_dirty ∧
      (LCDMenu.setDirty is_dirty row now m).1.dirt1 = m.dirt1) ∧
    (row = 2 → (LCDMenu.setDirty is_dirty row now m).1.dirt1 = is_dirty ∧
      (LCDMenu.setDirty is_dirty row now m).1.dirt0 = m.dirt0) ∧
    (2 < row → (LCDMenu.setDirty is_dirty row now m).1.dirt1 = is_dirty ∧
      (LCDMenu.setDirty is_dirty row now m).1.dirt0 = m.dirt0) ∧
    (LCDMenu.setDirty is_dirty row now m).1.is_asleep = false ∧
    (LCDMenu.setDirty is_dirty row now m).1.last_activity_time = now ∧
    (LCDMenu.setDirty is_dirty row now m).1.sleep_timeout = m.sleep_timeout ∧
    (LCDMenu.setDirty is_dirty row now m).1.cur_section = m.cur_section ∧
    (LCDMenu.setDirty is_dirty row now m).1.root = m.root := by
  simp only [LCDMenu.setDirty]
  split_ifs with hr0 hr2 hr1
  · exact ⟨by simp, fun h => ⟨by simp, by simp⟩, fun h => absurd h (by omega),
      fun h => absurd h (by omega), fun h => absurd h (by omega),
      by simp, by simp, by simp, by simp, by simp⟩
  · exact ⟨by simp, fun h => absurd h (by omega), fun h => ⟨by simp, by simp⟩,
      fun h => absurd h (by omega), fun h => absurd h (by omega),
      by simp, by simp, by simp, by simp, by simp⟩
  · exact ⟨by simp, fun h => absurd h (by omega), fun h => absurd h (by omega),
      fun h => ⟨by simp, by simp⟩, fun h => absurd h (by omega),
      by simp, by simp, by simp, by simp, by simp⟩
  · exact ⟨by simp, fun h => absurd h (by omega), fun h => absurd h (by omega),
      fun h => absurd h (by omega), fun h => ⟨by simp, by simp⟩,
      by simp, by simp, by simp, by simp, by simp⟩

/-- `printMenu` never leaves the redraw flag set. -/
theorem LCDMenu.printMenu_dirty_false (now : ℕ) (m : LCDMenu) :
    (m.printMenu now).1.dirty = false := by
  cases hb : m.dirty with
  | true =>
    unfold LCDMenu.printMenu
    rw [if_pos hb]
  | false =>
    unfold LCDMenu.printMenu LCDMenu.sleep
    rw [if_neg (by simp [hb])]
    split <;> simp [hb]

/-- On a clean controller, `printMenu` is a no-op until more than the
sleep timeout has elapsed since the last activity, and then goes to
sleep. -/
theorem LCDMenu.printMenu_clean (now : ℕ) (m : LCDMenu) (hd : m.dirty = false) :
    (now - m.last_activity_time ≤ m.sleep_timeout → m.printMenu now = (m, [])) ∧
    (m.sleep_timeout < now - m.last_activity_time →
      m.printMenu now = ({ m with is_asleep := true }, [DisplayCmd.backlightOff])) := by
  constructor
  · intro hle
    unfold LCDMenu.printMenu
    rw [if_neg (by simp [hd]), if_neg (by omega)]
  · intro hlt
    unfold LCDMenu.printMenu LCDMenu.sleep
    rw [if_neg (by simp [hd]), if_pos hlt]

/-- C7 (amended): `setDirty(isDirty, row)` marks BOTH row flags for every
`row ≤ 0` (the C++ test is `row <= 0`, so negative rows behave like row
0, they are not clamped to row 2); `row = 1` and `row = 2` mark only that
row's flag; `row > 2` is clamped to row 2; and every call, including ones
that clear dirtiness, runs `stayAwake`, resetting the last-activity
timestamp and waking the display. -/
theorem C7_setDirty_rows (is_dirty : Bool) (row : ℤ) (now : ℕ) (m : LCDMenu) :
    (LCDMenu.setDirty is_dirty row now m).1.dirty = is_dirty ∧
    (row ≤ 0 → (LCDMenu.setDirty is_dirty row now m).1.dirt0 = is_dirty ∧
      (LCDMenu.setDirty is_dirty row now m).1.dirt1 = is_dirty) ∧
    (row = 1 → (LCDMenu.setDirty is_dirty row now m).1.dirt0 = is_dirty ∧
      (LCDMenu.setDirty is_dirty row now m).1.dirt1 = m.dirt1) ∧
    (row = 2 → (LCDMenu.setDirty is_dirty row now m).1.dirt1 = is_dirty ∧
      (LCDMenu.setDirty is_dirty row now m).1.dirt0 = m.dirt0) ∧
    (2 < row → (LCDMenu.setDirty is_dirty row now m).1.dirt1 = is_dirty ∧
      (LCDMenu.setDirty is_dirty row now m).1.dirt0 = m.dirt0) ∧
    (LCDMenu.setDirty is_dirty row now m).1.last_activity_time = now ∧
    (LCDMenu.setDirty is_dirty row now m).1.is_asleep = false := by
  obtain ⟨h1, h2, h3, h4, h5, h6, h7, _⟩ := LCDMenu.setDirty_fields is_dirty row now m
  exact ⟨h1, h2, h3, h4, h5, h7, h6⟩

theorem C7_setDirty_rows_witness :
    (LCDMenu.setDirty true (-3) 9 cleanMenu).1.dirty = true ∧
    ((-3 : ℤ) ≤ 0 → (LCDMenu.setDirty true (-3) 9 cleanMenu).1.dirt0 = true ∧
      (LCDMenu.setDirty true (-3) 9 cleanMenu).1.dirt1 = true) ∧
    ((-3 : ℤ) = 1 → (LCDMenu.setDirty true (-3) 9 cleanMenu).1.dirt0 = true ∧
      (LCDMenu.setDirty true (-3) 9 cleanMenu).1.dirt1 = cleanMenu.dirt1) ∧
    ((-3 : ℤ) = 2 → (LCDMenu.setDirty true (-3) 9 cleanMenu).1.dirt1 = true ∧
      (LCDMenu.setDirty true (-3) 9 cleanMenu).1.dirt0 = cleanMenu.dirt0) ∧
    ((2 : ℤ) < -3 → (LCDMenu.setDirty true (-3) 9 cleanMenu).1.dirt1 = true ∧
      (LCDMenu.setDirty true (-3) 9 cleanMenu).1.dirt0 = cleanMenu.dirt0) ∧
    (LCDMenu.setDirty true (-3) 9 cleanMenu).1.last_activity_time = 9 ∧
    (LCDMenu.setDirty true (-3) 9 cleanMenu).1.is_asleep = false :=
  C7_setDirty_rows true (-3) 9 cleanMenu

/-- C7, counterexample: `row = -1` is "any other row value" in the claim
and should be clamped to row 2, leaving row 1's flag alone; but the C++
`row <= 0` test marks both rows, so from an all-clean state row 1's flag
becomes true. -/
theorem C7_counterexample :
    cleanMenu.dirt0 = false ∧ (LCDMenu.setDirty true (-1) 5 cleanMenu).1.dirt0 = true := by
  constructor
  · rfl
  · rfl

/-- After any single public operation, the any-redraw flag being set
implies that some row flag is set, whatever the starting state. -/
theorem LCDMenu.applyOp_dirty_imp (op : MenuOp) (m : LCDMenu) :
    (LCDMenu.applyOp op m).dirty = true →
      (LCDMenu.applyOp op m).dirt0 = true ∨ (LCDMenu.applyOp op m).dirt1 = true := by
  cases op with
  | setDirtyOp d row now =>
    obtain ⟨hd, h0, h1, h2, h3, _⟩ := LCDMenu.setDirty_fields d row now m
    intro h
    simp only [LCDMenu.applyOp] at h ⊢
    rw [hd] at h
    subst h
    by_cases hr : row ≤ 0
    · exact Or.inl (h0 hr).1
    · by_cases hr1 : row = 1
      · exact Or.inl (h1 hr1).1
      · by_cases hr2 : row = 2
        · exact Or.inr (h2 hr2).1
        · exact Or.inr (h3 (by omega)).1
  | printMenuOp now =>
    intro h
    simp only [LCDMenu.applyOp] at h
    rw [LCDMenu.printMenu_dirty_false now m] at h
    exact absurd h (by simp)
  | nextItemOp now =>
    intro h
    simp only [LCDMenu.applyOp, LCDMenu.nextItem] at h ⊢
    obtain ⟨_, h0, _⟩ := LCDMenu.setDirty_fields true 0 now
      { m with cur_section := m.cur_section.map LCDMenuSection.nextItem }
    exact Or.inl (h0 (by omega)).1
  | prevItemOp now =>
    intro h
    simp only [LCDMenu.applyOp, LCDMenu.prevItem] at h ⊢
    obtain ⟨_, h0, _⟩ := LCDMenu.setDirty_fields true 0 now
      { m with cur_section := m.cur_section.map LCDMenuSection.prevItem }
    exact Or.inl (h0 (by omega)).1
  | incCurrentParamOp inc now =>
    intro h
    simp only [LCDMenu.applyOp, LCDMenu.incCurrentParam] at h ⊢
    obtain ⟨_, _, _, h2, _⟩ := LCDMenu.setDirty_fields true 2 now
      { m with cur_section := m.cur_section.map (LCDMenuSection.incCurrent now inc) }
    exact Or.inr (h2 rfl).1
  | addSectionOp sec now =>
    intro h
    simp only [LCDMenu.applyOp, LCDMenu.addSection] at h ⊢
    obtain ⟨_, h0, _⟩ := LCDMenu.setDirty_fields true 0 now
      { m with cur_section := some sec,
               root := if m.root.isNone then some sec else m.root }
    exact Or.inl (h0 (by omega)).1

/-- The dirty-implies-row-flag property is preserved by any sequence of
public operations. -/
theorem LCDMenu.applyOps_dirty_imp (ops : List MenuOp) (m : LCDMenu)
    (h : m.dirty = true → m.dirt0 = true ∨ m.dirt1 = true) :
    (LCDMenu.applyOps ops m).dirty = true →
      (LCDMenu.applyOps ops m).dirt0 = true ∨ (LCDMenu.applyOps ops m).dirt1 = true := by
  induction ops generalizing m with
  | nil => exact h
  | cons op rest ih =>
    simp only [LCDMenu.applyOps]
    exact ih (LCDMenu.applyOp op m) (LCDMenu.applyOp_dirty_imp op m)

/-- C4 (amended): in every state reachable from the constructor through
the public operations, the any-redraw flag being set implies that at
least one row flag is set.  (The converse direction of the claimed
equivalence fails in reachable states, see the counterexample.) -/
theorem C4_dirty_implies_row_flag (t0 : ℕ) (j0 j1 j2 : Bool) (jt : ℕ) (ops : List MenuOp)
    (h : (LCDMenu.applyOps ops (LCDMenu.construct t0 j0 j1 j2 jt).1).dirty = true) :
    (LCDMenu.applyOps ops (LCDMenu.construct t0 j0 j1 j2 jt).1).dirt0 = true ∨
      (LCDMenu.applyOps ops (LCDMenu.construct t0 j0 j1 j2 jt).1).dirt1 = true := by
  refine LCDMenu.applyOps_dirty_imp ops (LCDMenu.construct t0 j0 j1 j2 jt).1 ?_ h
  intro _
  obtain ⟨_, h0, _⟩ := LCDMenu.setDirty_fields true 0 t0
    { dirty := j0, dirt0 := j1, dirt1 := j2, is_asleep := false,
      sleep_timeout := 30 * 1000, last_activity_time := jt,
      root := none, cur_section := none }
  exact Or.inl (h0 (by omega)).1

theorem C4_dirty_implies_row_flag_witness :
    (LCDMenu.applyOps [] (LCDMenu.construct 0 false false false 0).1).dirt0 = true ∨
      (LCDMenu.applyOps [] (LCDMenu.construct 0 false false false 0).1).dirt1 = true :=
  C4_dirty_implies_row_flag 0 false false false 0 [] (by decide)

/-- C4, counterexample: the claimed equivalence fails in a reachable
state: starting from the constructor (all flags set), the public call
`setDirty(false, 1)` clears the any-redraw flag and row 1's flag but
leaves row 2's flag set, so a row flag is true while the any-redraw flag
is false. -/
theorem C4_counterexample :
    ¬ ((LCDMenu.applyOps [MenuOp.setDirtyOp false 1 3]
          (LCDMenu.construct 0 false false false 0).1).dirty = true ↔
        ((LCDMenu.applyOps [MenuOp.setDirtyOp false 1 3]
            (LCDMenu.construct 0 false false false 0).1).dirt0 = true ∨
          (LCDMenu.applyOps [MenuOp.setDirtyOp false 1 3]
              (LCDMenu.construct 0 false false false 0).1).dirt1 = true)) := by
  decide

/-- C5: with the redraw flag and both row flags set (as `setDirty(true)`
leaves them) and a section in place, one `printMenu` call clears all
three flags and issues exactly one full clear followed by one cursor
positioning plus one content write per row; an immediately following
`printMenu` with nothing newly dirtied and the sleep timeout not yet
exceeded issues no display command at all. -/
theorem C5_printMenu_redraw (m : LCDMenu) (s : LCDMenuSection MenuParam) (now now2 : ℕ)
    (hs : m.cur_section = some s)
    (hd : m.dirty = true) (h0 : m.dirt0 = true) (h1 : m.dirt1 = true)
    (ht : now2 - m.last_activity_time ≤ m.sleep_timeout) :
    (m.printMenu now).1.dirty = false ∧
    (m.printMenu now).1.dirt0 = false ∧
    (m.printMenu now).1.dirt1 = false ∧
    (∃ w1 w2 : DisplayCmd, w1.isWrite = true ∧ w2.isWrite = true ∧
      (m.printMenu now).2 =
        [DisplayCmd.clearLCD, DisplayCmd.selectLineOne, w1, DisplayCmd.selectLineTwo, w2]) ∧
    ((m.printMenu now).1.printMenu now2).2 = [] := by
  have hpm : m.printMenu now =
      ({ m with dirty := false, dirt0 := false, dirt1 := false },
       [DisplayCmd.clearLCD, DisplayCmd.selectLineOne,
        DisplayCmd.printText (m.currentParam).getName, DisplayCmd.selectLineTwo,
        if (m.currentParam).isFloatValue then DisplayCmd.printNum (m.currentParam).getValue
        else DisplayCmd.printText (m.currentParam).getDisplayValue]) := by
    unfold LCDMenu.printMenu
    rw [if_pos hd]
    simp [h0, h1]
  rw [hpm]
  refine ⟨rfl, rfl, rfl, ?_, ?_⟩
  · refine ⟨DisplayCmd.printText (m.currentParam).getName,
      if (m.currentParam).isFloatValue then DisplayCmd.printNum (m.currentParam).getValue
      else DisplayCmd.printText (m.currentParam).getDisplayValue, rfl, ?_, rfl⟩
    cases hF : (m.currentParam).isFloatValue <;> simp [hF, DisplayCmd.isWrite]
  · obtain ⟨hc1, _⟩ := LCDMenu.printMenu_clean now2
      { m with dirty := false, dirt0 := false, dirt1 := false } rfl
    rw [hc1 ht]

theorem C5_printMenu_redraw_witness :
    (demoMenu.printMenu 4).1.dirty = false ∧
    (demoMenu.printMenu 4).1.dirt0 = false ∧
    (demoMenu.printMenu 4).1.dirt1 = false ∧
    (∃ w1 w2 : DisplayCmd, w1.isWrite = true ∧ w2.isWrite = true ∧
      (demoMenu.printMenu 4).2 =
        [DisplayCmd.clearLCD, DisplayCmd.selectLineOne, w1, DisplayCmd.selectLineTwo, w2]) ∧
    ((demoMenu.printMenu 4).1.printMenu 8).2 = [] :=
  C5_printMenu_redraw demoMenu demoSection 4 8 rfl rfl rfl rfl (by decide)

/-- C6: after `stayAwake` at time `t`, a `printMenu` call with nothing
dirty does nothing at any time `now` with `now - t` at most the sleep
timeout; once more than the timeout has elapsed with no activity, the
same call turns the backlight off and sets the asleep flag. -/
theorem C6_sleep_timing (m : LCDMenu) (t now : ℕ) (hd : m.dirty = false) :
    (now - t ≤ m.sleep_timeout →
      (m.stayAwake t).1.printMenu now = ((m.stayAwake t).1, [])) ∧
    (m.sleep_timeout < now - t →
      ((m.stayAwake t).1.printMenu now).1.is_asleep = true ∧
      ((m.stayAwake t).1.printMenu now).2 = [DisplayCmd.backlightOff]) := by
  obtain ⟨hc1, hc2⟩ := LCDMenu.printMenu_clean now (m.stayAwake t).1 (by simp [hd])
  constructor
  · intro hle
    exact hc1 (by simp; omega)
  · intro hlt
    have heq := hc2 (by simp; omega)
    rw [heq]
    exact ⟨rfl, rfl⟩

theorem C6_sleep_timing_witness :
    ((31001 : ℕ) - 0 ≤ cleanMenu.sleep_timeout →
      (cleanMenu.stayAwake 0).1.printMenu 31001 = ((cleanMenu.stayAwake 0).1, [])) ∧
    (cleanMenu.sleep_timeout < 31001 - 0 →
      ((cleanMenu.stayAwake 0).1.printMenu 31001).1.is_asleep = true ∧
      ((cleanMenu.stayAwake 0).1.printMenu 31001).2 = [DisplayCmd.backlightOff]) :=
  C6_sleep_timing cleanMenu 0 31001 rfl
